import Mathlib

/-!
Shallow embedding of the foodcourtio back-office core: the payments service
(`src/payments`), the orders service, and the employees service, with theorems
checking the natural-language specification against the code.

Conventions of the embedding:
* monetary amounts and timestamps are integers (`Int`), as the source stores
  integer minor units and epoch milliseconds;
* JS arithmetic on amounts is embedded over `ℚ` (exact rationals);
  `Math.round` becomes `jsRound`;
* the JS `||` default idiom on nullable numbers and strings is embedded by
  `jsOrInt` / `jsOrStr` (`0` and `""` are falsy);
* `prisma` lookups are embedded by passing the looked-up row (or `none`)
  as an argument; thrown Nest exceptions become `Except Err`;
* database writes are the returned values: an `Except.error` result performs
  no write.
-/

deriving instance DecidableEq for Except

namespace Foodcourtio

/-- `Role` enum from `@prisma/client`, as used by the services. -/
inductive Role
  | SUPERADMIN
  | RESTAURANT_OWNER
  | EMPLOYEE
  | CUSTOMER
deriving DecidableEq, Repr

/-- `User` row fields used by the services. -/
structure User where
  id : String
  name : String
  role : Role
deriving DecidableEq, Repr

/-- `PaymentStatus` from `src/payments/dto/payment.dto.ts`. -/
inductive PaymentStatus
  | PENDING
  | COMPLETED
  | FAILED
  | REFUNDED
deriving DecidableEq, Repr

/-- `PaymentMethod` from `src/payments/dto/payment.dto.ts`. -/
inductive PaymentMethod
  | STRIPE
  | YOOKASSA
  | CASH
  | CARD_TERMINAL
deriving DecidableEq, Repr

/-- `OrderStatus` from `src/orders/dto/order.dto.ts`. -/
inductive OrderStatus
  | PENDING
  | PREPARING
  | READY
  | COMPLETED
  | CANCELLED
deriving DecidableEq, Repr

/-- `ShiftStatus` from the employees DTO file. -/
inductive ShiftStatus
  | SCHEDULED
  | ACTIVE
  | COMPLETED
  | CANCELLED
deriving DecidableEq, Repr

/-- Nest exceptions thrown by the services. -/
inductive Err
  | notFound (msg : String)
  | forbidden (msg : String)
  | badRequest (msg : String)
deriving DecidableEq, Repr

/-- JS `Math.round` on an exact rational: JS rounds halves toward `+∞`,
which is exactly `⌊q + 1/2⌋` (stated as `Rat.floor` so the definition
evaluates; `jsRound_eq_floor` below gives the `⌊⌋` form). -/
def jsRound (q : ℚ) : Int := (q + 1 / 2).floor

/-- JS `x || d` for a nullable number `x` (both `null` and `0` are falsy). -/
def jsOrInt (x : Option Int) (d : Int) : Int :=
  match x with
  | some a => if a = 0 then d else a
  | none => d

/-- JS `x || d` for a nullable string `x` (both `null` and `""` are falsy). -/
def jsOrStr (x : Option String) (d : String) : String :=
  match x with
  | some s => if s = "" then d else s
  | none => d

/-- The slice of the JSON `metadata` column of `Payment` that the payments
service reads or writes. -/
structure PaymentMeta where
  amountReceived : Option Int := none
  changeGiven : Option Int := none
  processedBy : Option String := none
  processedAt : Option Int := none
  terminalId : Option String := none
  terminalTransactionId : Option String := none
  cardLast4 : Option String := none
  cardType : Option String := none
  completedAt : Option Int := none
  failedAt : Option Int := none
  refundAmount : Option Int := none
  refundReason : Option String := none
deriving DecidableEq, Repr

/-- `Payment` row fields used by the payments service. -/
structure Payment where
  amount : Int
  currency : String
  method : PaymentMethod
  status : PaymentStatus
  commission : Int
  commissionAmount : Int
  netAmount : Int
  provider : String
  externalPaymentId : Option String := none
  metadata : PaymentMeta := {}
deriving DecidableEq, Repr

/-- `Order` row fields used by the orders and payments services. -/
structure Order where
  orderNumber : String
  restaurantId : String
  customerId : Option String
  totalAmount : Int
  status : OrderStatus
  specialInstructions : Option String
  estimatedTime : Option Int
  payment : Option Payment
deriving DecidableEq, Repr

namespace PaymentsService

/-- `PaymentsService.commissionRate = 0.05` (a service-wide constant). -/
def commissionRate : ℚ := 5 / 100

/-- `CreatePaymentDto` fields used by `PaymentsService.create`. -/
structure CreatePaymentDto where
  amount : Int
  method : PaymentMethod
  currency : Option String
deriving DecidableEq, Repr

/-- `PaymentsService.create`: the payment row inserted for a new payment.
The `order` argument is the `prisma.order.findUnique` result (with its
`payment` relation); the provider calls that follow for STRIPE / YOOKASSA
update only `externalPaymentId`, `paymentUrl` and `metadata`, never the
amount or commission fields. -/
def create (dto : CreatePaymentDto) (order : Option Order) (currentUser : User) :
    Except Err Payment :=
  match order with
  | none => .error (.notFound "Order not found")
  | some o =>
    if o.payment.isSome then
      .error (.badRequest "Order already has a payment")
    else if currentUser.role = Role.CUSTOMER ∧ o.customerId ≠ some currentUser.id then
      .error (.forbidden "You can only create payments for your own orders")
    else
      let commissionAmount := jsRound ((dto.amount : ℚ) * commissionRate)
      let netAmount := dto.amount - commissionAmount
      .ok
        { amount := dto.amount
          currency := jsOrStr dto.currency "USD"
          method := dto.method
          status := .PENDING
          commission := commissionAmount
          commissionAmount := commissionAmount
          netAmount := netAmount
          provider := "stripe" }

/-- `CashPaymentDto` fields used by `processCashPayment`. -/
structure CashPaymentDto where
  amountReceived : Int
  changeGiven : Option Int
  processedBy : Option String
deriving DecidableEq, Repr

/-- `PaymentsService.processCashPayment`. -/
def processCashPayment (dto : CashPaymentDto) (order : Option Order)
    (currentUser : User) (now : Int) : Except Err Payment :=
  if ¬ (currentUser.role = Role.SUPERADMIN ∨ currentUser.role = Role.RESTAURANT_OWNER ∨
        currentUser.role = Role.EMPLOYEE) then
    .error (.forbidden "Only restaurant staff can process cash payments")
  else
    match order with
    | none => .error (.notFound "Order not found")
    | some o =>
      if o.payment.isSome then
        .error (.badRequest "Order already has a payment")
      else
        let commissionAmount := jsRound ((o.totalAmount : ℚ) * commissionRate)
        let netAmount := o.totalAmount - commissionAmount
        .ok
          { amount := o.totalAmount
            currency := "USD"
            method := .CASH
            status := .COMPLETED
            commission := commissionAmount
            commissionAmount := commissionAmount
            netAmount := netAmount
            provider := "cash"
            metadata :=
              { amountReceived := some dto.amountReceived
                changeGiven := some (jsOrInt dto.changeGiven 0)
                processedBy := some (jsOrStr dto.processedBy currentUser.name)
                processedAt := some now } }

/-- `CardTerminalPaymentDto` fields used by `processCardTerminalPayment`. -/
structure CardTerminalPaymentDto where
  terminalTransactionId : String
  terminalId : String
  cardLast4 : Option String
  cardType : Option String
deriving DecidableEq, Repr

/-- `PaymentsService.processCardTerminalPayment`. -/
def processCardTerminalPayment (dto : CardTerminalPaymentDto) (order : Option Order)
    (currentUser : User) (now : Int) : Except Err Payment :=
  if ¬ (currentUser.role = Role.SUPERADMIN ∨ currentUser.role = Role.RESTAURANT_OWNER ∨
        currentUser.role = Role.EMPLOYEE) then
    .error (.forbidden "Only restaurant staff can process terminal payments")
  else
    match order with
    | none => .error (.notFound "Order not found")
    | some o =>
      if o.payment.isSome then
        .error (.badRequest "Order already has a payment")
      else
        let commissionAmount := jsRound ((o.totalAmount : ℚ) * commissionRate)
        let netAmount := o.totalAmount - commissionAmount
        .ok
          { amount := o.totalAmount
            currency := "USD"
            method := .CARD_TERMINAL
            status := .COMPLETED
            commission := commissionAmount
            commissionAmount := commissionAmount
            netAmount := netAmount
            provider := "terminal"
            externalPaymentId := some dto.terminalTransactionId
            metadata :=
              { terminalId := some dto.terminalId
                terminalTransactionId := some dto.terminalTransactionId
                cardLast4 := dto.cardLast4
                cardType := dto.cardType
                processedBy := some currentUser.name
                processedAt := some now } }

/-- `PaymentsService.handleStripePaymentSuccess`: the argument is the
`prisma.payment.findFirst` result for the webhook's `externalPaymentId`;
when a payment is found its status is set to `COMPLETED` and a
`completedAt` timestamp is written, with no check of the prior status. -/
def handleStripePaymentSuccess (now : Int) (payment : Option Payment) :
    Option Payment :=
  payment.map fun p =>
    { p with
      status := .COMPLETED
      metadata := { p.metadata with completedAt := some now } }

/-- `PaymentsService.handleYookassaPaymentSuccess` (same shape as the
Stripe success handler). -/
def handleYookassaPaymentSuccess (now : Int) (payment : Option Payment) :
    Option Payment :=
  payment.map fun p =>
    { p with
      status := .COMPLETED
      metadata := { p.metadata with completedAt := some now } }

/-- `PaymentsService.handleStripePaymentFailed`: sets the found payment to
`FAILED` and writes a `failedAt` timestamp, with no check of the prior
status. -/
def handleStripePaymentFailed (now : Int) (payment : Option Payment) :
    Option Payment :=
  payment.map fun p =>
    { p with
      status := .FAILED
      metadata := { p.metadata with failedAt := some now } }

/-- `RefundPaymentDto`. -/
structure RefundPaymentDto where
  amount : Option Int
  reason : String
deriving DecidableEq, Repr

/-- `PaymentsService.refund` (success path of the provider call).
`restaurantOwnerId` is `payment.order.restaurant.ownerId`. The update
writes only `status` and the `metadata.refund` object; the `commission`,
`commissionAmount` and `netAmount` columns are not touched. -/
def refund (payment : Option Payment) (restaurantOwnerId : String)
    (dto : RefundPaymentDto) (currentUser : User) : Except Err Payment :=
  match payment with
  | none => .error (.notFound "Payment not found")
  | some p =>
    if p.status ≠ PaymentStatus.COMPLETED then
      .error (.badRequest "Can only refund completed payments")
    else if currentUser.role = Role.RESTAURANT_OWNER ∧ restaurantOwnerId ≠ currentUser.id then
      .error (.forbidden "You can only refund payments from your own restaurants")
    else
      let refundAmount := jsOrInt dto.amount p.amount
      .ok
        { p with
          status := .REFUNDED
          metadata :=
            { p.metadata with
              refundAmount := some refundAmount
              refundReason := some dto.reason } }

end PaymentsService

namespace OrdersService

/-- Printable name of an order status, as interpolated into the
`Invalid status transition from ... to ...` message. -/
def statusName : OrderStatus → String
  | .PENDING => "PENDING"
  | .PREPARING => "PREPARING"
  | .READY => "READY"
  | .COMPLETED => "COMPLETED"
  | .CANCELLED => "CANCELLED"

/-- The `validTransitions` table of `OrdersService.validateStatusTransition`. -/
def validTransitions : OrderStatus → List OrderStatus
  | .PENDING => [.PREPARING, .CANCELLED]
  | .PREPARING => [.READY, .CANCELLED]
  | .READY => [.COMPLETED, .CANCELLED]
  | .COMPLETED => []
  | .CANCELLED => []

/-- `OrdersService.validateStatusTransition`. -/
def validateStatusTransition (currentStatus newStatus : OrderStatus) :
    Except Err Unit :=
  if newStatus ∈ validTransitions currentStatus then .ok ()
  else
    .error (.badRequest
      ("Invalid status transition from " ++ statusName currentStatus ++
        " to " ++ statusName newStatus))

/-- `OrdersService.verifyOrderAccess`; `restaurantOwnerId` is
`order.restaurant.ownerId`. Employee access is left to the caller
(per the comment in the source). -/
def verifyOrderAccess (order : Order) (restaurantOwnerId : String)
    (currentUser : User) : Except Err Unit :=
  match currentUser.role with
  | .SUPERADMIN => .ok ()
  | .RESTAURANT_OWNER =>
    if restaurantOwnerId ≠ currentUser.id then
      .error (.forbidden "You can only access orders from your own restaurants")
    else .ok ()
  | .EMPLOYEE => .ok ()
  | .CUSTOMER =>
    if order.customerId ≠ some currentUser.id then
      .error (.forbidden "You can only access your own orders")
    else .ok ()

/-- `UpdateOrderStatusDto`. -/
structure UpdateOrderStatusDto where
  status : OrderStatus
  estimatedTime : Option Int
deriving DecidableEq, Repr

/-- `OrdersService.updateStatus`: `findOne` (which runs
`verifyOrderAccess`), then `validateStatusTransition`, then the staff-role
check, then the row update. -/
def updateStatus (order : Order) (restaurantOwnerId : String)
    (dto : UpdateOrderStatusDto) (currentUser : User) : Except Err Order := do
  verifyOrderAccess order restaurantOwnerId currentUser
  validateStatusTransition order.status dto.status
  if ¬ (currentUser.role = Role.SUPERADMIN ∨ currentUser.role = Role.RESTAURANT_OWNER ∨
        currentUser.role = Role.EMPLOYEE) then
    .error (.forbidden "Only restaurant staff can update order status")
  else
    .ok { order with status := dto.status, estimatedTime := dto.estimatedTime }

/-- `CancelOrderDto`. -/
structure CancelOrderDto where
  reason : String
  refund : Option Bool
deriving DecidableEq, Repr

/-- `OrdersService.cancel`: `findOne` (access check), then rejection of
terminal statuses, then the row update to `CANCELLED`. The
`if (cancelDto.refund && cancelledOrder.payment)` block in the source is
empty (the refund call is commented out behind a TODO), so the `refund`
flag has no effect and the payment row is never touched. -/
def cancel (order : Order) (restaurantOwnerId : String) (dto : CancelOrderDto)
    (currentUser : User) : Except Err Order := do
  verifyOrderAccess order restaurantOwnerId currentUser
  if order.status = OrderStatus.COMPLETED then
    .error (.badRequest "Cannot cancel a completed order")
  else if order.status = OrderStatus.CANCELLED then
    .error (.badRequest "Order is already cancelled")
  else
    .ok
      { order with
        status := .CANCELLED
        specialInstructions :=
          some (match order.specialInstructions with
            | some si => si ++ "\n\nCANCELLED: " ++ dto.reason
            | none => "CANCELLED: " ++ dto.reason) }

/-- Decimal string of a natural number, the embedding of JS `String(n)`:
big-endian decimal digits, `"0"` for zero. -/
def natToString (n : ℕ) : String :=
  if n = 0 then "0" else ⟨((Nat.digits 10 n).reverse.map Nat.digitChar)⟩

/-- JS `s.padStart(len, c)` for a one-character pad string. -/
def padStart (s : String) (len : ℕ) (c : Char) : String :=
  if len ≤ s.length then s else ⟨List.replicate (len - s.length) c ++ s.data⟩

/-- `OrdersService.generateOrderNumber`: `dateStr` is today's date as
`YYYYMMDD` and `dailyCount` the `prisma.order.count` of this restaurant's
orders created today; the produced number is
`dateStr-String(dailyCount + 1).padStart(3, '0')`. -/
def generateOrderNumber (dateStr : String) (dailyCount : ℕ) : String :=
  dateStr ++ "-" ++ padStart (natToString (dailyCount + 1)) 3 '0'

/-- The order numbers assigned by `n` successive successful order creations
for one restaurant on one calendar day `dateStr`: the `k`-th creation runs
`generateOrderNumber` against a daily count of `k` existing orders. -/
def createOrdersSequence (dateStr : String) : ℕ → List String
  | 0 => []
  | n + 1 => createOrdersSequence dateStr n ++ [generateOrderNumber dateStr n]

end OrdersService

namespace EmployeesService

/-- `Shift` row fields used by the employees service; times are epoch
milliseconds, `breakDuration` is minutes. -/
structure Shift where
  startTime : Int
  endTime : Int
  actualStartTime : Option Int := none
  actualEndTime : Option Int := none
  breakDuration : Option Int := none
  status : ShiftStatus
deriving DecidableEq, Repr

/-- The raw-SQL overlap test of `EmployeesService.createShift`, applied to
one stored shift of the employee: status in (SCHEDULED, ACTIVE) and the
three-disjunct interval condition against the new `[startTime, endTime)`. -/
def conflictsWith (startTime endTime : Int) (s : Shift) : Bool :=
  (s.status = ShiftStatus.SCHEDULED ∨ s.status = ShiftStatus.ACTIVE) ∧
    ((s.startTime ≤ startTime ∧ s.endTime > startTime) ∨
      (s.startTime < endTime ∧ s.endTime ≥ endTime) ∨
      (s.startTime ≥ startTime ∧ s.endTime ≤ endTime))

/-- `EmployeesService.createShift` (after the `findOne` access check):
validates `startTime < endTime`, rejects when the overlap query returns a
row, otherwise inserts the new SCHEDULED shift. `shifts` is the employee's
stored shift list; the returned list is the list after the call. -/
def createShift (shifts : List Shift) (startTime endTime : Int)
    (breakDuration : Option Int) : Except Err (List Shift) :=
  if startTime ≥ endTime then
    .error (.badRequest "Start time must be before end time")
  else if shifts.any (conflictsWith startTime endTime) then
    .error (.badRequest "Employee has overlapping shift scheduled")
  else
    .ok (shifts ++
      [{ startTime := startTime
         endTime := endTime
         breakDuration := some (jsOrInt breakDuration 0)
         status := .SCHEDULED }])

/-- The value returned by `clockOut`: the updated shift row plus the
calculated fields added to the response. `hoursWorked` and
`calculatedPay` are JS floating-point numbers, embedded as exact `ℚ`. -/
structure ClockOutResult where
  shift : Shift
  hoursWorked : ℚ
  calculatedPay : Option ℚ
deriving DecidableEq, Repr

/-- `EmployeesService.clockOut`: the `shift` argument is the
`prisma.shift.findUnique` result; `employeeUserId` is
`shift.employee.userId`, `restaurantOwnerId` is
`shift.employee.restaurant.ownerId` and `hourlyWage` is
`shift.employee.hourlyWage` (minor units per hour, nullable). -/
def clockOut (shift : Option Shift) (employeeUserId : Option String)
    (restaurantOwnerId : String) (hourlyWage : Option Int)
    (currentUser : User) (now : Int) : Except Err ClockOutResult :=
  match shift with
  | none => .error (.notFound "Shift not found")
  | some s =>
    if currentUser.role = Role.EMPLOYEE ∧ employeeUserId ≠ some currentUser.id then
      .error (.forbidden "You can only clock out from your own shifts")
    else if currentUser.role = Role.RESTAURANT_OWNER ∧ restaurantOwnerId ≠ currentUser.id then
      .error (.forbidden "You can only manage shifts in your own restaurants")
    else if s.status ≠ ShiftStatus.ACTIVE then
      .error (.badRequest "Can only clock out from active shifts")
    else
      let startTime := s.actualStartTime.getD s.startTime
      let hoursWorked : ℚ := ((now - startTime : Int) : ℚ) / (1000 * 60 * 60)
      let adjustedHours : ℚ :=
        max 0 (hoursWorked - ((jsOrInt s.breakDuration 0 : Int) : ℚ) / 60)
      .ok
        { shift := { s with status := .COMPLETED, actualEndTime := some now }
          hoursWorked := adjustedHours
          calculatedPay :=
            match hourlyWage with
            | some w => if w = 0 then none else some (adjustedHours * ((w : ℚ) / 100))
            | none => none }

end EmployeesService

/-! ### Concrete fixtures used by counterexamples and witnesses -/

/-- A superadmin caller. -/
def adminUser : User := { id := "admin", name := "Admin", role := .SUPERADMIN }

/-- A customer caller with id `u1`. -/
def customerUser : User := { id := "u1", name := "Cust", role := .CUSTOMER }

/-- An unpaid pending order of customer `u1` totalling 1500 minor units. -/
def baseOrder : Order :=
  { orderNumber := "20250101-001"
    restaurantId := "r1"
    customerId := some "u1"
    totalAmount := 1500
    status := .PENDING
    specialInstructions := none
    estimatedTime := none
    payment := none }

/-- A completed 1500-minor-unit card payment with the materialized 5%
commission split (75 commission, 1425 net). -/
def completedPayment : Payment :=
  { amount := 1500
    currency := "USD"
    method := .STRIPE
    status := .COMPLETED
    commission := 75
    commissionAmount := 75
    netAmount := 1425
    provider := "stripe"
    externalPaymentId := some "pi_1" }

/-- `completedPayment` after a provider refund settled (status REFUNDED). -/
def refundedPayment : Payment := { completedPayment with status := .REFUNDED }

/-- The payment row written by a full refund of `completedPayment`. -/
def refundResult : Payment :=
  { completedPayment with
    status := .REFUNDED
    metadata :=
      { completedPayment.metadata with
        refundAmount := some 1500
        refundReason := some "requested" } }

/-- `baseOrder` moved to PREPARING with a completed payment attached. -/
def paidPreparingOrder : Order :=
  { baseOrder with status := .PREPARING, payment := some completedPayment }

/-- `baseOrder` (placed by customer `u1`) moved to PREPARING. -/
def preparingOrder : Order := { baseOrder with status := .PREPARING }

/-- Shift `[600, 660)` (in minutes-as-integers), SCHEDULED. -/
def morningShift : EmployeesService.Shift :=
  { startTime := 600, endTime := 660, status := .SCHEDULED }

/-- An ACTIVE shift clocked in at epoch-millisecond 0. -/
def activeShift : EmployeesService.Shift :=
  { startTime := 0, endTime := 28800000, actualStartTime := some 0, status := .ACTIVE }

/-- Numeric value of a decimal digit character (inverse of
`Nat.digitChar` on digits below 10), used to decode order numbers. -/
def charVal (c : Char) : ℕ := c.toNat - 48

/-- Decode a decimal digit string (possibly zero-padded) back to the
natural number it denotes. -/
def decodeDigits (s : String) : ℕ :=
  Nat.ofDigits 10 ((s.data.map charVal).reverse)

/-! ### Helper lemmas -/

/-- `jsRound` is `⌊q + 1/2⌋`. -/
theorem jsRound_eq_floor (q : ℚ) : jsRound q = ⌊q + 1 / 2⌋ := by
  rw [jsRound, Rat.floor_def', Rat.floor_def]

/-- `Math.round(a * 0.05)` on an integer amount `a` is the floor division
`(a + 10) / 20`. -/
theorem jsRound_five_percent (a : ℤ) :
    jsRound ((a : ℚ) * PaymentsService.commissionRate) = (a + 10) / 20 := by
  rw [jsRound_eq_floor, PaymentsService.commissionRate]
  have h : (a : ℚ) * (5 / 100) + 1 / 2 = ((a + 10 : ℤ) : ℚ) / ((20 : ℕ) : ℚ) := by
    push_cast; ring
  rw [h, Rat.floor_intCast_div_natCast]
  norm_num

/-- Evaluation of `PaymentsService.create` on an order without a payment,
for a caller that passes the customer-scope check. -/
theorem create_ok (dto : PaymentsService.CreatePaymentDto) (o : Order) (u : User)
    (h1 : o.payment = none)
    (h2 : ¬ (u.role = Role.CUSTOMER ∧ o.customerId ≠ some u.id)) :
    PaymentsService.create dto (some o) u =
      .ok { amount := dto.amount
            currency := jsOrStr dto.currency "USD"
            method := dto.method
            status := .PENDING
            commission := jsRound ((dto.amount : ℚ) * PaymentsService.commissionRate)
            commissionAmount := jsRound ((dto.amount : ℚ) * PaymentsService.commissionRate)
            netAmount := dto.amount - jsRound ((dto.amount : ℚ) * PaymentsService.commissionRate)
            provider := "stripe" } := by
  simp [PaymentsService.create, h1, h2]

/-- Evaluation of `PaymentsService.processCashPayment` for a staff caller
on an order without a payment. -/
theorem processCashPayment_ok (dto : PaymentsService.CashPaymentDto) (o : Order)
    (u : User) (now : Int)
    (hstaff : u.role = Role.SUPERADMIN ∨ u.role = Role.RESTAURANT_OWNER ∨
      u.role = Role.EMPLOYEE)
    (h1 : o.payment = none) :
    PaymentsService.processCashPayment dto (some o) u now =
      .ok { amount := o.totalAmount
            currency := "USD"
            method := .CASH
            status := .COMPLETED
            commission := jsRound ((o.totalAmount : ℚ) * PaymentsService.commissionRate)
            commissionAmount := jsRound ((o.totalAmount : ℚ) * PaymentsService.commissionRate)
            netAmount := o.totalAmount - jsRound ((o.totalAmount : ℚ) * PaymentsService.commissionRate)
            provider := "cash"
            metadata :=
              { amountReceived := some dto.amountReceived
                changeGiven := some (jsOrInt dto.changeGiven 0)
                processedBy := some (jsOrStr dto.processedBy u.name)
                processedAt := some now } } := by
  rw [PaymentsService.processCashPayment, if_neg (not_not_intro hstaff)]
  simp [h1]

/-- Evaluation of `PaymentsService.processCardTerminalPayment` for a staff
caller on an order without a payment. -/
theorem processCardTerminalPayment_ok (dto : PaymentsService.CardTerminalPaymentDto)
    (o : Order) (u : User) (now : Int)
    (hstaff : u.role = Role.SUPERADMIN ∨ u.role = Role.RESTAURANT_OWNER ∨
      u.role = Role.EMPLOYEE)
    (h1 : o.payment = none) :
    PaymentsService.processCardTerminalPayment dto (some o) u now =
      .ok { amount := o.totalAmount
            currency := "USD"
            method := .CARD_TERMINAL
            status := .COMPLETED
            commission := jsRound ((o.totalAmount : ℚ) * PaymentsService.commissionRate)
            commissionAmount := jsRound ((o.totalAmount : ℚ) * PaymentsService.commissionRate)
            netAmount := o.totalAmount - jsRound ((o.totalAmount : ℚ) * PaymentsService.commissionRate)
            provider := "terminal"
            externalPaymentId := some dto.terminalTransactionId
            metadata :=
              { terminalId := some dto.terminalId
                terminalTransactionId := some dto.terminalTransactionId
                cardLast4 := dto.cardLast4
                cardType := dto.cardType
                processedBy := some u.name
                processedAt := some now } } := by
  rw [PaymentsService.processCardTerminalPayment, if_neg (not_not_intro hstaff)]
  simp [h1]

/-! ### C1 -/

/-- C1 counterexample: creating a payment of amount 1099 yields commission
55 and net 1044; 55 is neither `⌊1099 × 0.10⌋ = 109` (the claim's example
rate) nor `⌊1099 × 0.05⌋ = 54` (floor at the code's own rate), so the
commission is not the floor of amount times the restaurant's rate. -/
theorem c1_commission_counterexample :
    PaymentsService.create { amount := 1099, method := .STRIPE, currency := none }
        (some baseOrder) adminUser =
      .ok { amount := 1099, currency := "USD", method := .STRIPE, status := .PENDING,
            commission := 55, commissionAmount := 55, netAmount := 1044,
            provider := "stripe" } ∧
    (55 : ℤ) ≠ ⌊(1099 : ℚ) * (10 / 100)⌋ ∧
    (55 : ℤ) ≠ ⌊(1099 : ℚ) * (5 / 100)⌋ := by
  refine ⟨?_, by norm_num [Int.floor_eq_iff], by norm_num [Int.floor_eq_iff]⟩
  have hc : jsRound ((1099 : ℚ) * PaymentsService.commissionRate) = 55 := by
    rw [jsRound_eq_floor, PaymentsService.commissionRate]
    norm_num [Int.floor_eq_iff]
  simp [PaymentsService.create, baseOrder, adminUser, jsOrStr, hc]

/-- C1 (amended): in all three payment-creation paths the commission is
`Math.round(amount × 0.05)` — a fixed service-wide 5% rate in
`PaymentsService.commissionRate`, the restaurant's own rate being ignored
— which equals the floor division `(amount + 10) / 20`, and net is
`amount − commission`. -/
theorem c1_commission_round_fixed_rate :
    (∀ (dto : PaymentsService.CreatePaymentDto) (o : Order) (u : User),
        o.payment = none →
        ¬ (u.role = Role.CUSTOMER ∧ o.customerId ≠ some u.id) →
        ∃ p, PaymentsService.create dto (some o) u = .ok p ∧
          p.commissionAmount = (dto.amount + 10) / 20 ∧
          p.commission = p.commissionAmount ∧
          p.netAmount = dto.amount - p.commissionAmount) ∧
    (∀ (dto : PaymentsService.CashPaymentDto) (o : Order) (u : User) (now : Int),
        u.role = Role.SUPERADMIN ∨ u.role = Role.RESTAURANT_OWNER ∨ u.role = Role.EMPLOYEE →
        o.payment = none →
        ∃ p, PaymentsService.processCashPayment dto (some o) u now = .ok p ∧
          p.commissionAmount = (o.totalAmount + 10) / 20 ∧
          p.commission = p.commissionAmount ∧
          p.netAmount = o.totalAmount - p.commissionAmount) ∧
    (∀ (dto : PaymentsService.CardTerminalPaymentDto) (o : Order) (u : User) (now : Int),
        u.role = Role.SUPERADMIN ∨ u.role = Role.RESTAURANT_OWNER ∨ u.role = Role.EMPLOYEE →
        o.payment = none →
        ∃ p, PaymentsService.processCardTerminalPayment dto (some o) u now = .ok p ∧
          p.commissionAmount = (o.totalAmount + 10) / 20 ∧
          p.commission = p.commissionAmount ∧
          p.netAmount = o.totalAmount - p.commissionAmount) := by
  refine ⟨?_, ?_, ?_⟩
  · intro dto o u h1 h2
    exact ⟨_, create_ok dto o u h1 h2, jsRound_five_percent dto.amount, rfl, rfl⟩
  · intro dto o u now hstaff h1
    exact ⟨_, processCashPayment_ok dto o u now hstaff h1,
      jsRound_five_percent o.totalAmount, rfl, rfl⟩
  · intro dto o u now hstaff h1
    exact ⟨_, processCardTerminalPayment_ok dto o u now hstaff h1,
      jsRound_five_percent o.totalAmount, rfl, rfl⟩

/-- C1 witness: the amended claim at amount 1099 (create) and at
`baseOrder`'s total of 1500 (cash and terminal): commissions 55 and 75. -/
theorem c1_commission_round_fixed_rate_witness :
    (∃ p, PaymentsService.create { amount := 1099, method := .STRIPE, currency := none }
        (some baseOrder) adminUser = .ok p ∧
        p.commissionAmount = 55 ∧ p.netAmount = 1044) ∧
    (∃ p, PaymentsService.processCashPayment
        { amountReceived := 2000, changeGiven := none, processedBy := none }
        (some baseOrder) adminUser 0 = .ok p ∧
        p.commissionAmount = 75 ∧ p.netAmount = 1425) ∧
    (∃ p, PaymentsService.processCardTerminalPayment
        { terminalTransactionId := "t1", terminalId := "term1", cardLast4 := none,
          cardType := none }
        (some baseOrder) adminUser 0 = .ok p ∧
        p.commissionAmount = 75 ∧ p.netAmount = 1425) := by
  obtain ⟨hcreate, hcash, hterm⟩ := c1_commission_round_fixed_rate
  refine ⟨?_, ?_, ?_⟩
  · obtain ⟨p, hp, h1, h2, h3⟩ :=
      hcreate ⟨1099, .STRIPE, none⟩ baseOrder adminUser rfl (by decide)
    exact ⟨p, hp, by rw [h1]; decide, by rw [h3, h1]; decide⟩
  · obtain ⟨p, hp, h1, h2, h3⟩ :=
      hcash ⟨2000, none, none⟩ baseOrder adminUser 0 (by decide) rfl
    exact ⟨p, hp, by rw [h1]; decide, by rw [h3, h1]; decide⟩
  · obtain ⟨p, hp, h1, h2, h3⟩ :=
      hterm ⟨"t1", "term1", none, none⟩ baseOrder adminUser 0 (by decide) rfl
    exact ⟨p, hp, by rw [h1]; decide, by rw [h3, h1]; decide⟩

/-! ### C2 -/

/-- C2 counterexample: a `charge.succeeded` webhook processed for a payment
already in the terminal status REFUNDED does not leave the payment
unchanged — its status is overwritten back to COMPLETED. -/
theorem c2_webhook_terminal_counterexample :
    PaymentsService.handleStripePaymentSuccess 0 (some refundedPayment) ≠
      some refundedPayment ∧
    (PaymentsService.handleStripePaymentSuccess 0 (some refundedPayment)).map
        Payment.status = some PaymentStatus.COMPLETED := by
  constructor
  · decide
  · decide

/-- C2 (amended): the provider success handlers overwrite the matched
payment's status to COMPLETED unconditionally, with no terminal-status
guard; hence re-delivering the same success event acts on the already
processed payment exactly as on the original (replays converge), but a
payment in a terminal status is not left unchanged. -/
theorem c2_webhook_success_overwrites (p : Payment) (t1 t2 : Int) :
    (PaymentsService.handleStripePaymentSuccess t1 (some p)).map Payment.status =
      some PaymentStatus.COMPLETED ∧
    PaymentsService.handleStripePaymentSuccess t2
        (PaymentsService.handleStripePaymentSuccess t1 (some p)) =
      PaymentsService.handleStripePaymentSuccess t2 (some p) ∧
    (PaymentsService.handleYookassaPaymentSuccess t1 (some p)).map Payment.status =
      some PaymentStatus.COMPLETED ∧
    PaymentsService.handleYookassaPaymentSuccess t2
        (PaymentsService.handleYookassaPaymentSuccess t1 (some p)) =
      PaymentsService.handleYookassaPaymentSuccess t2 (some p) := by
  refine ⟨rfl, rfl, rfl, rfl⟩

/-! ### C5 -/

/-- C5 counterexample: a full refund of a completed 1500 payment records
the refund amount and sets status REFUNDED, but the materialized
commission stays 75 and the net stays 1425 — they are not reversed to
zero. -/
theorem c5_refund_commission_counterexample :
    PaymentsService.refund (some completedPayment) "owner1"
        { amount := none, reason := "requested" } adminUser = .ok refundResult ∧
    refundResult.status = PaymentStatus.REFUNDED ∧
    refundResult.metadata.refundAmount = some 1500 ∧
    refundResult.commissionAmount = 75 ∧
    refundResult.netAmount = 1425 := by
  refine ⟨by decide, rfl, rfl, rfl, rfl⟩

/-- C5 (amended): refunding a Completed payment for its full amount sets
status REFUNDED and records the refund amount in the payment's metadata,
while the materialized commission and net fields are left unchanged at
their original values (they are not reversed to zero). -/
theorem c5_refund_keeps_commission (p : Payment) (ownerId reason : String) (u : User)
    (hstatus : p.status = PaymentStatus.COMPLETED)
    (haccess : ¬ (u.role = Role.RESTAURANT_OWNER ∧ ownerId ≠ u.id)) :
    ∃ q, PaymentsService.refund (some p) ownerId { amount := none, reason := reason } u =
        .ok q ∧
      q.status = PaymentStatus.REFUNDED ∧
      q.metadata.refundAmount = some p.amount ∧
      q.amount = p.amount ∧
      q.commissionAmount = p.commissionAmount ∧
      q.netAmount = p.netAmount := by
  have hok : PaymentsService.refund (some p) ownerId { amount := none, reason := reason } u =
      .ok { p with
            status := .REFUNDED
            metadata :=
              { p.metadata with
                refundAmount := some p.amount
                refundReason := some reason } } := by
    rw [PaymentsService.refund]
    rw [if_neg (by simp [hstatus]), if_neg haccess]
    rfl
  exact ⟨_, hok, rfl, rfl, rfl, rfl, rfl⟩

/-- C5 witness: the amended claim applied to `completedPayment` refunded by
the superadmin. -/
theorem c5_refund_keeps_commission_witness :
    ∃ q, PaymentsService.refund (some completedPayment) "owner1"
        { amount := none, reason := "requested" } adminUser = .ok q ∧
      q.status = PaymentStatus.REFUNDED ∧
      q.metadata.refundAmount = some 1500 ∧
      q.commissionAmount = 75 ∧
      q.netAmount = 1425 := by
  obtain ⟨q, hq, h1, h2, h3, h4, h5⟩ :=
    c5_refund_keeps_commission completedPayment "owner1" "requested" adminUser rfl (by decide)
  exact ⟨q, hq, h1, h2, by rw [h4]; rfl, by rw [h5]; rfl⟩

/-! ### C10 -/

/-- C10: cash and terminal payments always charge the order's stored
`totalAmount`: the payment row is created directly with status COMPLETED,
its amount equals `order.totalAmount` whatever `amountReceived` the client
sent (that value is kept only in `metadata`), and two cash requests that
differ only in `amountReceived` produce the same charged amount. -/
theorem c10_sync_payments_charge_order_total (cdto cdto2 : PaymentsService.CashPaymentDto)
    (tdto : PaymentsService.CardTerminalPaymentDto) (o : Order) (u : User) (now : Int)
    (hstaff : u.role = Role.SUPERADMIN ∨ u.role = Role.RESTAURANT_OWNER ∨
      u.role = Role.EMPLOYEE)
    (hnopay : o.payment = none) :
    (∃ p, PaymentsService.processCashPayment cdto (some o) u now = .ok p ∧
        p.amount = o.totalAmount ∧ p.status = PaymentStatus.COMPLETED ∧
        p.metadata.amountReceived = some cdto.amountReceived) ∧
    Except.map Payment.amount (PaymentsService.processCashPayment cdto (some o) u now) =
      Except.map Payment.amount (PaymentsService.processCashPayment cdto2 (some o) u now) ∧
    (∃ p, PaymentsService.processCardTerminalPayment tdto (some o) u now = .ok p ∧
        p.amount = o.totalAmount ∧ p.status = PaymentStatus.COMPLETED) := by
  refine ⟨⟨_, processCashPayment_ok cdto o u now hstaff hnopay, rfl, rfl, rfl⟩, ?_,
    ⟨_, processCardTerminalPayment_ok tdto o u now hstaff hnopay, rfl, rfl⟩⟩
  rw [processCashPayment_ok cdto o u now hstaff hnopay,
    processCashPayment_ok cdto2 o u now hstaff hnopay]
  rfl

/-- C10 witness: a cash request reporting 9999 received and a terminal
request both charge `baseOrder`'s stored total of 1500 and complete
immediately; the 9999 lands only in the metadata. -/
theorem c10_sync_payments_witness :
    (∃ p, PaymentsService.processCashPayment ⟨9999, none, none⟩ (some baseOrder)
        adminUser 0 = .ok p ∧
        p.amount = 1500 ∧ p.status = PaymentStatus.COMPLETED ∧
        p.metadata.amountReceived = some 9999) ∧
    (∃ p, PaymentsService.processCardTerminalPayment ⟨"t1", "term1", none, none⟩
        (some baseOrder) adminUser 0 = .ok p ∧
        p.amount = 1500 ∧ p.status = PaymentStatus.COMPLETED) := by
  obtain ⟨⟨p, hp, ha, hs, hm⟩, -, ⟨q, hq, hqa, hqs⟩⟩ :=
    c10_sync_payments_charge_order_total ⟨9999, none, none⟩ ⟨1, none, none⟩
      ⟨"t1", "term1", none, none⟩ baseOrder adminUser 0 (by decide) rfl
  exact ⟨⟨p, hp, by rw [ha]; rfl, hs, hm⟩, ⟨q, hq, by rw [hqa]; rfl, hqs⟩⟩

/-! ### C4 -/

/-- C4: the transition table is exactly Pending → Preparing/Cancelled,
Preparing → Ready/Cancelled, Ready → Completed/Cancelled, nothing out of
Completed or Cancelled; for a staff caller a disallowed `(from, to)` pair
makes `updateStatus` fail with the illegal-transition error (no row
written), and an allowed pair updates exactly the status (and estimate). -/
theorem c4_status_transition_table :
    (∀ s t : OrderStatus,
        OrdersService.validateStatusTransition s t = .ok () ↔
          ((s = .PENDING ∧ (t = .PREPARING ∨ t = .CANCELLED)) ∨
            (s = .PREPARING ∧ (t = .READY ∨ t = .CANCELLED)) ∨
            (s = .READY ∧ (t = .COMPLETED ∨ t = .CANCELLED)))) ∧
    (∀ (o : Order) (ownerId : String) (dto : OrdersService.UpdateOrderStatusDto) (u : User),
        u.role = Role.SUPERADMIN →
        dto.status ∉ OrdersService.validTransitions o.status →
        OrdersService.updateStatus o ownerId dto u =
          .error (.badRequest ("Invalid status transition from " ++
            OrdersService.statusName o.status ++ " to " ++
            OrdersService.statusName dto.status))) ∧
    (∀ (o : Order) (ownerId : String) (dto : OrdersService.UpdateOrderStatusDto) (u : User),
        u.role = Role.SUPERADMIN →
        dto.status ∈ OrdersService.validTransitions o.status →
        OrdersService.updateStatus o ownerId dto u =
          .ok { o with status := dto.status, estimatedTime := dto.estimatedTime }) := by
  refine ⟨?_, ?_, ?_⟩
  · intro s t
    cases s <;> cases t <;>
      simp [OrdersService.validateStatusTransition, OrdersService.validTransitions]
  · intro o ownerId dto u hrole hnot
    rw [OrdersService.updateStatus, OrdersService.verifyOrderAccess, hrole]
    rw [OrdersService.validateStatusTransition, if_neg hnot]
    rfl
  · intro o ownerId dto u hrole hmem
    rw [OrdersService.updateStatus, OrdersService.verifyOrderAccess, hrole]
    rw [OrdersService.validateStatusTransition, if_pos hmem]
    rfl

/-- C4 witness: for the superadmin, `PENDING → READY` is rejected with the
illegal-transition error and `PENDING → PREPARING` succeeds. -/
theorem c4_status_transition_table_witness :
    OrdersService.updateStatus baseOrder "o1" ⟨.READY, none⟩ adminUser =
      .error (.badRequest "Invalid status transition from PENDING to READY") ∧
    OrdersService.updateStatus baseOrder "o1" ⟨.PREPARING, some 10⟩ adminUser =
      .ok { baseOrder with status := .PREPARING, estimatedTime := some 10 } := by
  constructor
  · have h := c4_status_transition_table.2.1 baseOrder "o1" ⟨.READY, none⟩ adminUser
      rfl (by decide)
    rw [h]
    rfl
  · exact c4_status_transition_table.2.2 baseOrder "o1" ⟨.PREPARING, some 10⟩ adminUser
      rfl (by decide)

/-! ### C3 -/

/-- C3 counterexample: cancelling a Preparing order that has a Completed
payment with `refund = true` is not rejected — the order is cancelled
outright (so it does not remain Preparing), and the payment is untouched;
no `RefundFailed` rejection exists in the code. -/
theorem c3_cancel_refund_counterexample :
    OrdersService.cancel paidPreparingOrder "o1" { reason := "x", refund := some true }
        adminUser =
      .ok { paidPreparingOrder with
            status := .CANCELLED
            specialInstructions := some "CANCELLED: x" } ∧
    Order.payment { paidPreparingOrder with
            status := OrderStatus.CANCELLED
            specialInstructions := some "CANCELLED: x" } = some completedPayment ∧
    OrderStatus.CANCELLED ≠ OrderStatus.PREPARING := by
  refine ⟨by decide, by decide, by decide⟩

/-- C3 (amended): the refund branch of `OrdersService.cancel` is an
unimplemented TODO: cancelling a non-terminal order succeeds
unconditionally whatever the `refund` flag says, the order becomes
Cancelled, the payment is left unchanged, and no refund (hence no
`RefundFailed` rejection) ever happens — the result does not depend on the
`refund` flag at all. -/
theorem c3_cancel_never_refunds (o : Order) (ownerId reason : String)
    (b : Option Bool) (u : User)
    (hrole : u.role = Role.SUPERADMIN)
    (hc : o.status ≠ OrderStatus.COMPLETED) (hcc : o.status ≠ OrderStatus.CANCELLED) :
    ∃ o', OrdersService.cancel o ownerId { reason := reason, refund := b } u = .ok o' ∧
      o'.status = OrderStatus.CANCELLED ∧
      o'.payment = o.payment ∧
      OrdersService.cancel o ownerId { reason := reason, refund := b } u =
        OrdersService.cancel o ownerId { reason := reason, refund := none } u := by
  have hok : OrdersService.cancel o ownerId { reason := reason, refund := b } u =
      .ok { o with
            status := .CANCELLED
            specialInstructions :=
              some (match o.specialInstructions with
                | some si => si ++ "\n\nCANCELLED: " ++ reason
                | none => "CANCELLED: " ++ reason) } := by
    rw [OrdersService.cancel, OrdersService.verifyOrderAccess, hrole]
    show (if o.status = OrderStatus.COMPLETED then _ else _) = _
    rw [if_neg hc, if_neg hcc]
  refine ⟨_, hok, rfl, rfl, ?_⟩
  rw [hok]
  rw [OrdersService.cancel, OrdersService.verifyOrderAccess, hrole]
  show _ = (if o.status = OrderStatus.COMPLETED then _ else _)
  rw [if_neg hc, if_neg hcc]

/-- C3 witness: the amended claim at `paidPreparingOrder` with
`refund = true`. -/
theorem c3_cancel_never_refunds_witness :
    ∃ o', OrdersService.cancel paidPreparingOrder "o1"
        { reason := "x", refund := some true } adminUser = .ok o' ∧
      o'.status = OrderStatus.CANCELLED ∧
      o'.payment = some completedPayment := by
  obtain ⟨o', hok, hs, hp, -⟩ :=
    c3_cancel_never_refunds paidPreparingOrder "o1" "x" (some true) adminUser
      rfl (by decide) (by decide)
  exact ⟨o', hok, hs, by rw [hp]; decide⟩

/-! ### C9 -/

/-- C9 counterexample: customer `u1` cancels their own order while it is
already PREPARING and the request succeeds — it is not restricted to
Pending orders. -/
theorem c9_customer_cancel_counterexample :
    OrdersService.cancel preparingOrder "o1" { reason := "changed mind", refund := none }
        customerUser =
      .ok { preparingOrder with
            status := .CANCELLED
            specialInstructions := some "CANCELLED: changed mind" } := by
  decide

/-- Evaluation of `OrdersService.cancel` for a customer caller: the access
check tests self-placement, then the two terminal statuses are rejected,
then the order is cancelled. -/
theorem cancel_customer_eval (o : Order) (ownerId : String)
    (dto : OrdersService.CancelOrderDto) (u : User)
    (hrole : u.role = Role.CUSTOMER) :
    OrdersService.cancel o ownerId dto u =
      if o.customerId ≠ some u.id then
        .error (.forbidden "You can only access your own orders")
      else if o.status = OrderStatus.COMPLETED then
        .error (.badRequest "Cannot cancel a completed order")
      else if o.status = OrderStatus.CANCELLED then
        .error (.badRequest "Order is already cancelled")
      else
        .ok { o with
              status := .CANCELLED
              specialInstructions :=
                some (match o.specialInstructions with
                  | some si => si ++ "\n\nCANCELLED: " ++ dto.reason
                  | none => "CANCELLED: " ++ dto.reason) } := by
  rw [OrdersService.cancel, OrdersService.verifyOrderAccess, hrole]
  by_cases hself : o.customerId ≠ some u.id
  · rw [if_pos hself, if_pos hself]
    rfl
  · rw [if_neg hself, if_neg hself]
    rfl

/-- C9 (amended): a Customer's cancel succeeds exactly on self-placed
orders in any non-terminal status (Pending, Preparing or Ready) — the
self-placed restriction holds, but there is no only-Pending restriction. -/
theorem c9_customer_cancel_scope (o : Order) (ownerId : String)
    (dto : OrdersService.CancelOrderDto) (u : User)
    (hrole : u.role = Role.CUSTOMER) :
    (∃ o', OrdersService.cancel o ownerId dto u = .ok o') ↔
      (o.customerId = some u.id ∧ o.status ≠ OrderStatus.COMPLETED ∧
        o.status ≠ OrderStatus.CANCELLED) := by
  rw [cancel_customer_eval o ownerId dto u hrole]
  by_cases hself : o.customerId = some u.id
  · rw [if_neg (not_not_intro hself)]
    by_cases hc : o.status = OrderStatus.COMPLETED
    · simp [hself, hc]
    · by_cases hcc : o.status = OrderStatus.CANCELLED <;> simp [hself, hc, hcc]
  · rw [if_pos hself]
    simp [hself]

/-- C9 witness: customer `u1` can cancel their own Pending order. -/
theorem c9_customer_cancel_scope_witness :
    ∃ o', OrdersService.cancel baseOrder "o1" { reason := "r", refund := none }
        customerUser = .ok o' := by
  exact (c9_customer_cancel_scope baseOrder "o1" { reason := "r", refund := none }
    customerUser rfl).mpr ⟨rfl, by decide, by decide⟩

/-! ### C7 -/

/-- The SQL overlap test equals half-open interval intersection, for
well-formed intervals. -/
theorem conflictsWith_iff (startTime endTime : Int) (s : EmployeesService.Shift)
    (hs : s.startTime < s.endTime) (hSE : startTime < endTime) :
    EmployeesService.conflictsWith startTime endTime s = true ↔
      ((s.status = ShiftStatus.SCHEDULED ∨ s.status = ShiftStatus.ACTIVE) ∧
        s.startTime < endTime ∧ startTime < s.endTime) := by
  rw [EmployeesService.conflictsWith]
  simp only [decide_eq_true_eq]
  constructor
  · rintro ⟨hst, hdisj⟩
    exact ⟨hst, by omega, by omega⟩
  · rintro ⟨hst, h1, h2⟩
    exact ⟨hst, by omega⟩

/-- C7: for a valid new interval `[startTime, endTime)`, `createShift`
fails with the overlapping-shift error — inserting nothing — exactly when
some SCHEDULED or ACTIVE shift of the employee intersects the half-open
interval; otherwise the new SCHEDULED shift row is appended. -/
theorem c7_shift_overlap (shifts : List EmployeesService.Shift)
    (startTime endTime : Int) (bd : Option Int)
    (hSE : startTime < endTime)
    (hwf : ∀ s ∈ shifts, s.startTime < s.endTime) :
    (EmployeesService.createShift shifts startTime endTime bd =
        .error (.badRequest "Employee has overlapping shift scheduled") ↔
      ∃ s ∈ shifts, (s.status = ShiftStatus.SCHEDULED ∨ s.status = ShiftStatus.ACTIVE) ∧
        s.startTime < endTime ∧ startTime < s.endTime) ∧
    ((¬ ∃ s ∈ shifts, (s.status = ShiftStatus.SCHEDULED ∨ s.status = ShiftStatus.ACTIVE) ∧
        s.startTime < endTime ∧ startTime < s.endTime) →
      EmployeesService.createShift shifts startTime endTime bd =
        .ok (shifts ++
          [{ startTime := startTime, endTime := endTime,
             breakDuration := some (jsOrInt bd 0), status := .SCHEDULED }])) := by
  have hiff : shifts.any (EmployeesService.conflictsWith startTime endTime) = true ↔
      ∃ s ∈ shifts, (s.status = ShiftStatus.SCHEDULED ∨ s.status = ShiftStatus.ACTIVE) ∧
        s.startTime < endTime ∧ startTime < s.endTime := by
    rw [List.any_eq_true]
    constructor
    · rintro ⟨s, hmem, hc⟩
      exact ⟨s, hmem, (conflictsWith_iff startTime endTime s (hwf s hmem) hSE).mp hc⟩
    · rintro ⟨s, hmem, hc⟩
      exact ⟨s, hmem, (conflictsWith_iff startTime endTime s (hwf s hmem) hSE).mpr hc⟩
  rw [EmployeesService.createShift, if_neg (by omega : ¬ startTime ≥ endTime)]
  constructor
  · by_cases hany : shifts.any (EmployeesService.conflictsWith startTime endTime) = true
    · rw [if_pos hany]
      simp only [true_iff, iff_true_intro (hiff.mp hany)]
    · rw [if_neg hany]
      constructor
      · intro h
        exact absurd h (by simp)
      · intro h
        exact absurd (hiff.mpr h) hany
  · intro hnone
    rw [if_neg (fun hany => hnone (hiff.mp hany))]

/-- C7 witness: against a scheduled `[10:00, 11:00)` shift (minutes 600 to
660), scheduling `[11:00, 12:00)` succeeds (shared endpoint is not an
overlap) while `[10:59, 11:30)` is rejected with the overlapping-shift
error. -/
theorem c7_shift_overlap_witness :
    EmployeesService.createShift [morningShift] 660 720 none =
      .ok [morningShift,
        { startTime := 660, endTime := 720, breakDuration := some 0,
          status := .SCHEDULED }] ∧
    EmployeesService.createShift [morningShift] 659 690 none =
      .error (.badRequest "Employee has overlapping shift scheduled") := by
  constructor
  · have h := (c7_shift_overlap [morningShift] 660 720 none (by decide) (by decide)).2
      (by decide)
    rw [h]
    rfl
  · exact (c7_shift_overlap [morningShift] 659 690 none (by decide) (by decide)).1.mpr
      (by decide)

/-! ### C8 -/

/-- C8 counterexample: clocking out after 1.5 hours with hourly wage 1000
minor units returns `calculatedPay = 15` — `effectiveHours × (wage / 100)`,
a fractional major-unit number — not the claimed
`round(effectiveHours × wageMinor) = 1500` integer minor units. -/
theorem c8_pay_counterexample :
    EmployeesService.clockOut (some activeShift) (some "e1") "o1" (some 1000)
        adminUser 5400000 =
      .ok { shift := { activeShift with status := .COMPLETED, actualEndTime := some 5400000 }
            hoursWorked := 3 / 2
            calculatedPay := some 15 } ∧
    jsRound ((3 / 2 : ℚ) * 1000) = 1500 ∧
    ((15 : ℚ)) ≠ 1500 := by
  refine ⟨?_, ?_, by norm_num⟩
  · rw [EmployeesService.clockOut]
    norm_num [activeShift, adminUser, jsOrInt]
    rfl
  · rw [jsRound_eq_floor]
    norm_num [Int.floor_eq_iff]

/-- C8 (amended): clocking out an Active shift computes
`effectiveHours = max(0, (now − actualStart)/3600000ms − breakMinutes/60)`
as the claim states, but the pay is `effectiveHours × (hourlyWage / 100)` —
a possibly fractional amount in major units, with no rounding and no minor
units; a null (or zero) wage yields null pay. -/
theorem c8_clockout_hours_and_pay (s : EmployeesService.Shift) (euid : Option String)
    (ownerId : String) (wage : Option Int) (u : User) (now : Int)
    (hrole : u.role = Role.SUPERADMIN)
    (hactive : s.status = ShiftStatus.ACTIVE) :
    ∃ r, EmployeesService.clockOut (some s) euid ownerId wage u now = .ok r ∧
      r.hoursWorked =
        max 0 (((now - s.actualStartTime.getD s.startTime : Int) : ℚ) / (1000 * 60 * 60)
          - ((jsOrInt s.breakDuration 0 : Int) : ℚ) / 60) ∧
      r.calculatedPay =
        (match wage with
          | some w => if w = 0 then none else some (r.hoursWorked * ((w : ℚ) / 100))
          | none => none) ∧
      (wage = none → r.calculatedPay = none) ∧
      r.shift.status = ShiftStatus.COMPLETED ∧
      r.shift.actualEndTime = some now := by
  have hok : EmployeesService.clockOut (some s) euid ownerId wage u now =
      .ok { shift := { s with status := .COMPLETED, actualEndTime := some now }
            hoursWorked :=
              max 0 (((now - s.actualStartTime.getD s.startTime : Int) : ℚ) / (1000 * 60 * 60)
                - ((jsOrInt s.breakDuration 0 : Int) : ℚ) / 60)
            calculatedPay :=
              (match wage with
                | some w => if w = 0 then none
                    else some ((max 0 (((now - s.actualStartTime.getD s.startTime : Int) : ℚ) / (1000 * 60 * 60)
                      - ((jsOrInt s.breakDuration 0 : Int) : ℚ) / 60)) * ((w : ℚ) / 100))
                | none => none) } := by
    rw [EmployeesService.clockOut]
    rw [if_neg (by simp [hrole]), if_neg (by simp [hrole]), if_neg (by simp [hactive])]
  refine ⟨_, hok, rfl, rfl, ?_, rfl, rfl⟩
  intro hw
  rw [hw]

/-- C8 witness: the amended claim at `activeShift`, wage 1000, clock-out at
1.5 hours: effective hours 3/2 and pay 15 (fractional major units). -/
theorem c8_clockout_hours_and_pay_witness :
    ∃ r, EmployeesService.clockOut (some activeShift) (some "e1") "o1" (some 1000)
        adminUser 5400000 = .ok r ∧
      r.hoursWorked = 3 / 2 ∧ r.calculatedPay = some 15 := by
  obtain ⟨r, hok, hh, hp, -, -, -⟩ :=
    c8_clockout_hours_and_pay activeShift (some "e1") "o1" (some 1000) adminUser 5400000
      rfl rfl
  refine ⟨r, hok, ?_, ?_⟩
  · rw [hh]
    norm_num [activeShift, jsOrInt]
  · rw [hp, hh]
    norm_num [activeShift, jsOrInt]

/-! ### C6 -/

/-- `charVal` undoes `Nat.digitChar` on decimal digits. -/
theorem charVal_digitChar (d : ℕ) (h : d < 10) : charVal (Nat.digitChar d) = d := by
  interval_cases d <;> rfl

/-- A run of zero digits decodes to zero. -/
theorem ofDigits_replicate_zero (z : ℕ) :
    Nat.ofDigits 10 (List.replicate z 0) = 0 := by
  induction z with
  | zero => rfl
  | succ m ih => rw [List.replicate_succ, Nat.ofDigits_cons, ih]

/-- Decoding `natToString v` preceded by any run of `'0'` pad characters
recovers `v`. -/
theorem decode_zeros_append (z v : ℕ) :
    Nat.ofDigits 10
      (((List.replicate z '0' ++ (OrdersService.natToString v).data).map charVal).reverse)
      = v := by
  rw [List.map_append, List.map_replicate, List.reverse_append, List.reverse_replicate]
  have hz : charVal '0' = 0 := rfl
  rw [hz, Nat.ofDigits_append, ofDigits_replicate_zero, Nat.mul_zero, Nat.add_zero]
  rcases Nat.eq_zero_or_pos v with rfl | hv
  · decide
  · rw [OrdersService.natToString, if_neg (Nat.pos_iff_ne_zero.mp hv)]
    show Nat.ofDigits 10 ((((Nat.digits 10 v).reverse.map Nat.digitChar).map charVal).reverse) = v
    rw [List.map_map]
    have hcongr : List.map (charVal ∘ Nat.digitChar) (Nat.digits 10 v).reverse =
        List.map id (Nat.digits 10 v).reverse :=
      List.map_congr_left fun d hd =>
        charVal_digitChar d (Nat.digits_lt_base (by norm_num) (List.mem_reverse.mp hd))
    rw [hcongr, List.map_id, List.reverse_reverse, Nat.ofDigits_digits]

/-- Decoding the zero-padded decimal part of an order number recovers the
counter value. -/
theorem decodeDigits_padStart (v : ℕ) :
    decodeDigits (OrdersService.padStart (OrdersService.natToString v) 3 '0') = v := by
  rw [OrdersService.padStart, decodeDigits]
  split
  · have h := decode_zeros_append 0 v
    rwa [List.replicate_zero, List.nil_append] at h
  · exact decode_zeros_append _ v

/-- Two distinct daily counters produce distinct order numbers (same day). -/
theorem generateOrderNumber_injective (d : String) :
    Function.Injective (OrdersService.generateOrderNumber d) := by
  intro k1 k2 h
  rw [OrdersService.generateOrderNumber, OrdersService.generateOrderNumber] at h
  have hdata := congrArg String.data h
  rw [String.data_append, String.data_append, String.data_append, String.data_append]
    at hdata
  have hp := List.append_cancel_left hdata
  have hs : OrdersService.padStart (OrdersService.natToString (k1 + 1)) 3 '0' =
      OrdersService.padStart (OrdersService.natToString (k2 + 1)) 3 '0' :=
    String.ext hp
  have := congrArg decodeDigits hs
  rw [decodeDigits_padStart, decodeDigits_padStart] at this
  omega

/-- The sequence of numbers handed out by `n` successive creations is the
image of `List.range n` under `generateOrderNumber`. -/
theorem createOrdersSequence_eq_map (d : String) (n : ℕ) :
    OrdersService.createOrdersSequence d n =
      (List.range n).map (OrdersService.generateOrderNumber d) := by
  induction n with
  | zero => rfl
  | succ m ih =>
    rw [OrdersService.createOrdersSequence, ih, List.range_succ, List.map_append]
    rfl

/-- The `001` suffix of the first number of a day. -/
theorem padStart_one : OrdersService.padStart (OrdersService.natToString 1) 3 '0' = "001" := by
  have h1 : OrdersService.natToString 1 = "1" := by
    rw [OrdersService.natToString, if_neg one_ne_zero,
      Nat.digits_of_lt 10 1 one_ne_zero (by norm_num)]
    rfl
  rw [h1]
  rfl

/-- C6: on any one day `dateStr` for one restaurant, the order numbers
produced by `n` successive successful creations are exactly the images of
the counter values `1, …, n` in ascending order (gapless, starting at
`dateStr-001`), formatted `dateStr-NNN` with the decimal part left-padded
with zeros to at least three digits, and they are pairwise distinct. -/
theorem c6_order_numbers_gapless (d : String) (n : ℕ) :
    OrdersService.createOrdersSequence d n =
      (List.range' 1 n).map
        (fun v => d ++ "-" ++ OrdersService.padStart (OrdersService.natToString v) 3 '0') ∧
    (OrdersService.createOrdersSequence d n).Nodup ∧
    (OrdersService.createOrdersSequence d n).head? =
      (if n = 0 then none else some (d ++ "-" ++ "001")) := by
  refine ⟨?_, ?_, ?_⟩
  · rw [createOrdersSequence_eq_map, List.range'_eq_map_range, List.map_map]
    exact List.map_congr_left fun k _ => by
      rw [Function.comp_apply, OrdersService.generateOrderNumber, Nat.add_comm 1 k]
  · rw [createOrdersSequence_eq_map]
    exact (List.nodup_range n).map (generateOrderNumber_injective d)
  · cases n with
    | zero => rfl
    | succ m =>
      rw [if_neg (Nat.succ_ne_zero m), createOrdersSequence_eq_map,
        List.range_succ_eq_map, List.map_cons, List.head?_cons,
        OrdersService.generateOrderNumber, padStart_one]

end Foodcourtio
